import Mathlib

/-!
Shallow embedding of `src/app/userDetails.js`.

The module exports three functions: `checkUserDetails` (a stub, replaced by a
spy/collaborator at runtime), `displayErrorMessage` (likewise), and
`verifyUserDetails`, the decision function under verification.  We embed the
two collaborators as parameters (the checker as a function from username to
integer response, the reporter as an effect on a call trace) and
`verifyUserDetails` as a state-passing function over a trace that records, in
order, every call to each collaborator.
-/

/-- Trace of collaborator invocations: the arguments of every call to
`checkUserDetails` and every message passed to `displayErrorMessage`,
in call order. -/
structure TraceState where
  checkerCalls : List String
  reporterCalls : List String
deriving Repr, DecidableEq

/-- Invoking the checker collaborator: records the username argument and
yields the collaborator's response. -/
def checkUserDetailsCall (checkUserDetails : String → Int) (username : String)
    (s : TraceState) : Int × TraceState :=
  (checkUserDetails username,
   { s with checkerCalls := s.checkerCalls ++ [username] })

/-- Invoking the reporter collaborator `displayErrorMessage`: records the
message passed. -/
def displayErrorMessageCall (message : String) (s : TraceState) : TraceState :=
  { s with reporterCalls := s.reporterCalls ++ [message] }

/-- Embedding of `verifyUserDetails` (src/app/userDetails.js lines 7-20):
`userVerified` starts `false`; the checker is called once on `username`;
on response `1` the flag is set `true`; on `0` or `-1` the corresponding
fixed message is reported; finally the flag is returned. -/
def verifyUserDetails (checkUserDetails : String → Int) (username : String)
    (s : TraceState) : Bool × TraceState :=
  let userVerified := false
  let call := checkUserDetailsCall checkUserDetails username s
  let response := call.1
  let s1 := call.2
  if response = 1 then
    (true, s1)
  else if response = 0 then
    (userVerified,
     displayErrorMessageCall "You do not have admin rights to this system" s1)
  else if response = -1 then
    (userVerified, displayErrorMessageCall "User details not recognised" s1)
  else
    (userVerified, s1)

/-- Embedding of the same function with fallible collaborators, to reason
about exception propagation: each collaborator returns `Except`, and the body
of `verifyUserDetails` itself contains no `throw`. -/
def verifyUserDetailsE (checkUserDetails : String → Except String Int)
    (displayErrorMessage : String → Except String Unit) (username : String) :
    Except String Bool :=
  let userVerified := false
  match checkUserDetails username with
  | Except.error e => Except.error e
  | Except.ok response =>
    if response = 1 then
      Except.ok true
    else if response = 0 then
      match displayErrorMessage "You do not have admin rights to this system" with
      | Except.error e => Except.error e
      | Except.ok _ => Except.ok userVerified
    else if response = -1 then
      match displayErrorMessage "User details not recognised" with
      | Except.error e => Except.error e
      | Except.ok _ => Except.ok userVerified
    else
      Except.ok userVerified

/-- The fixed message list appended to the reporter trace by one call,
as a function of the checker response (proof-internal characterisation). -/
def reportedMessages (response : Int) : List String :=
  if response = 1 then []
  else if response = 0 then ["You do not have admin rights to this system"]
  else if response = -1 then ["User details not recognised"]
  else []

lemma verifyUserDetails_eq (checkUserDetails : String → Int) (username : String)
    (s : TraceState) :
    verifyUserDetails checkUserDetails username s =
      (decide (checkUserDetails username = 1),
       { checkerCalls := s.checkerCalls ++ [username],
         reporterCalls :=
           s.reporterCalls ++ reportedMessages (checkUserDetails username) }) := by
  unfold verifyUserDetails checkUserDetailsCall displayErrorMessageCall
    reportedMessages
  by_cases h1 : checkUserDetails username = 1
  · simp [h1]
  · by_cases h0 : checkUserDetails username = 0
    · simp [h0]
    · by_cases hm : checkUserDetails username = -1
      · simp [hm]
      · simp [h1, h0, hm]

lemma reportedMessages_length_le (response : Int) :
    (reportedMessages response).length ≤ 1 := by
  unfold reportedMessages
  by_cases h1 : response = 1
  · simp [h1]
  · by_cases h0 : response = 0
    · simp [h0]
    · by_cases hm : response = -1
      · simp [hm]
      · simp [h1, h0, hm]

lemma reportedMessages_ne_nil (response : Int)
    (h : reportedMessages response ≠ []) : response = 0 ∨ response = -1 := by
  by_cases h0 : response = 0
  · exact Or.inl h0
  · by_cases hm : response = -1
    · exact Or.inr hm
    · exfalso
      apply h
      unfold reportedMessages
      by_cases h1 : response = 1
      · simp [h1]
      · simp [h1, h0, hm]

/-- C1: `verifyUserDetails` returns `true` if and only if the checker's
response for the username is the integer 1; every other response yields
`false`. -/
theorem verifyUserDetails_true_iff_response_one
    (checkUserDetails : String → Int) (username : String) (s : TraceState) :
    (verifyUserDetails checkUserDetails username s).1 = true ↔
      checkUserDetails username = 1 := by
  rw [verifyUserDetails_eq]
  simp

/-- C2: when the checker response is 0, `verifyUserDetails` returns `false`
and calls the reporter exactly once, with exactly the string
"You do not have admin rights to this system". -/
theorem verifyUserDetails_response_zero
    (checkUserDetails : String → Int) (username : String) (s : TraceState)
    (h : checkUserDetails username = 0) :
    (verifyUserDetails checkUserDetails username s).1 = false ∧
    (verifyUserDetails checkUserDetails username s).2.reporterCalls =
      s.reporterCalls ++ ["You do not have admin rights to this system"] := by
  rw [verifyUserDetails_eq]
  unfold reportedMessages
  simp [h]

/-- Witness for C2 at a concrete checker, username and trace. -/
theorem verifyUserDetails_response_zero_witness :
    (fun _ : String => (0 : Int)) "robin" = 0 ∧
    ((verifyUserDetails (fun _ : String => (0 : Int)) "robin"
        ⟨[], []⟩).1 = false ∧
     (verifyUserDetails (fun _ : String => (0 : Int)) "robin"
        ⟨[], []⟩).2.reporterCalls =
       [] ++ ["You do not have admin rights to this system"]) :=
  ⟨rfl, verifyUserDetails_response_zero (fun _ => 0) "robin" ⟨[], []⟩ rfl⟩

/-- C3: when the checker response is -1, `verifyUserDetails` returns `false`
and calls the reporter exactly once, with exactly the string
"User details not recognised". -/
theorem verifyUserDetails_response_neg_one
    (checkUserDetails : String → Int) (username : String) (s : TraceState)
    (h : checkUserDetails username = -1) :
    (verifyUserDetails checkUserDetails username s).1 = false ∧
    (verifyUserDetails checkUserDetails username s).2.reporterCalls =
      s.reporterCalls ++ ["User details not recognised"] := by
  rw [verifyUserDetails_eq]
  unfold reportedMessages
  simp [h]

/-- Witness for C3 at a concrete checker, username and trace. -/
theorem verifyUserDetails_response_neg_one_witness :
    (fun _ : String => (-1 : Int)) "joker" = -1 ∧
    ((verifyUserDetails (fun _ : String => (-1 : Int)) "joker"
        ⟨[], []⟩).1 = false ∧
     (verifyUserDetails (fun _ : String => (-1 : Int)) "joker"
        ⟨[], []⟩).2.reporterCalls =
       [] ++ ["User details not recognised"]) :=
  ⟨rfl, verifyUserDetails_response_neg_one (fun _ => -1) "joker" ⟨[], []⟩ rfl⟩

/-- C4: for every checker response outside {1, 0, -1}, `verifyUserDetails`
returns `false` and makes no call to the reporter. -/
theorem verifyUserDetails_response_other
    (checkUserDetails : String → Int) (username : String) (s : TraceState)
    (h1 : checkUserDetails username ≠ 1)
    (h0 : checkUserDetails username ≠ 0)
    (hm : checkUserDetails username ≠ -1) :
    (verifyUserDetails checkUserDetails username s).1 = false ∧
    (verifyUserDetails checkUserDetails username s).2.reporterCalls =
      s.reporterCalls := by
  rw [verifyUserDetails_eq]
  unfold reportedMessages
  simp [h1, h0, hm]

/-- Witness for C4 at the concrete response 2. -/
theorem verifyUserDetails_response_other_witness :
    ((fun _ : String => (2 : Int)) "batman" ≠ 1 ∧
     (fun _ : String => (2 : Int)) "batman" ≠ 0 ∧
     (fun _ : String => (2 : Int)) "batman" ≠ -1) ∧
    ((verifyUserDetails (fun _ : String => (2 : Int)) "batman"
        ⟨[], []⟩).1 = false ∧
     (verifyUserDetails (fun _ : String => (2 : Int)) "batman"
        ⟨[], []⟩).2.reporterCalls = []) :=
  ⟨⟨by decide, by decide, by decide⟩,
   verifyUserDetails_response_other (fun _ => 2) "batman" ⟨[], []⟩
     (by decide) (by decide) (by decide)⟩

/-- C5: every call to `verifyUserDetails` invokes the checker exactly once,
passing the caller's username unmodified: the checker-call trace grows by
exactly the one entry `username`. -/
theorem verifyUserDetails_checker_called_once
    (checkUserDetails : String → Int) (username : String) (s : TraceState) :
    (verifyUserDetails checkUserDetails username s).2.checkerCalls =
      s.checkerCalls ++ [username] := by
  rw [verifyUserDetails_eq]

/-- C6: a single call to `verifyUserDetails` invokes the reporter at most
once (the reporter trace grows by at most one entry), and invokes it only
when the checker response is 0 or -1. -/
theorem verifyUserDetails_reporter_at_most_once
    (checkUserDetails : String → Int) (username : String) (s : TraceState) :
    (verifyUserDetails checkUserDetails username s).2.reporterCalls.length ≤
      s.reporterCalls.length + 1 ∧
    ((verifyUserDetails checkUserDetails username s).2.reporterCalls ≠
        s.reporterCalls →
      checkUserDetails username = 0 ∨ checkUserDetails username = -1) := by
  rw [verifyUserDetails_eq]
  constructor
  · simp [reportedMessages_length_le]
  · intro hne
    apply reportedMessages_ne_nil
    intro hnil
    apply hne
    simp [hnil]

/-- C7: `verifyUserDetailsE` runs to completion and returns its boolean
result without throwing, provided the two collaborators themselves return
normally. -/
theorem verifyUserDetailsE_no_throw
    (checkUserDetails : String → Except String Int)
    (displayErrorMessage : String → Except String Unit) (username : String)
    (response : Int)
    (hc : checkUserDetails username = Except.ok response)
    (hd : ∀ m, displayErrorMessage m = Except.ok ()) :
    ∃ b : Bool,
      verifyUserDetailsE checkUserDetails displayErrorMessage username =
        Except.ok b := by
  unfold verifyUserDetailsE
  rw [hc]
  by_cases h1 : response = 1
  · exact ⟨true, by simp [h1]⟩
  · by_cases h0 : response = 0
    · exact ⟨false, by simp [h1, h0, hd]⟩
    · by_cases hm : response = -1
      · exact ⟨false, by simp [h1, h0, hm, hd]⟩
      · exact ⟨false, by simp [h1, h0, hm]⟩

/-- Witness for C7 at concrete, normally-returning collaborators. -/
theorem verifyUserDetailsE_no_throw_witness :
    ((fun _ : String => Except.ok (0 : Int) (ε := String)) "robin" =
        Except.ok 0 ∧
     ∀ m : String,
       (fun _ : String => Except.ok () (ε := String)) m = Except.ok ()) ∧
    ∃ b : Bool,
      verifyUserDetailsE (fun _ => Except.ok 0) (fun _ => Except.ok ())
        "robin" = Except.ok b :=
  ⟨⟨rfl, fun _ => rfl⟩,
   verifyUserDetailsE_no_throw (fun _ => Except.ok 0) (fun _ => Except.ok ())
     "robin" 0 rfl (fun _ => rfl)⟩

/-- C8: two successive calls to `verifyUserDetails` with the same username
and the same checker produce the same boolean result and add the same number
of reporter calls each time: no state carried between invocations changes
the outcome. -/
theorem verifyUserDetails_idempotent
    (checkUserDetails : String → Int) (username : String) (s : TraceState) :
    (verifyUserDetails checkUserDetails username
        (verifyUserDetails checkUserDetails username s).2).1 =
      (verifyUserDetails checkUserDetails username s).1 ∧
    (verifyUserDetails checkUserDetails username
          (verifyUserDetails checkUserDetails username s).2).2.reporterCalls.length -
        (verifyUserDetails checkUserDetails username s).2.reporterCalls.length =
      (verifyUserDetails checkUserDetails username s).2.reporterCalls.length -
        s.reporterCalls.length := by
  simp only [verifyUserDetails_eq]
  simp
  omega

/-- C9: the message passed to the reporter (if any) is a fixed literal
selected only by the checker response: two calls with possibly different
usernames, checkers and starting traces, but equal responses, append
identical reporter messages. -/
theorem verifyUserDetails_message_username_independent
    (c1 c2 : String → Int) (u1 u2 : String) (s1 s2 : TraceState)
    (h : c1 u1 = c2 u2) :
    (verifyUserDetails c1 u1 s1).2.reporterCalls.drop
        s1.reporterCalls.length =
      (verifyUserDetails c2 u2 s2).2.reporterCalls.drop
        s2.reporterCalls.length := by
  rw [verifyUserDetails_eq, verifyUserDetails_eq]
  simp [List.drop_left, h]

/-- Witness for C9 at two distinct usernames with the same response. -/
theorem verifyUserDetails_message_username_independent_witness :
    (fun _ : String => (0 : Int)) "robin" =
      (fun _ : String => (0 : Int)) "joker" ∧
    (verifyUserDetails (fun _ : String => (0 : Int)) "robin"
        ⟨[], []⟩).2.reporterCalls.drop 0 =
      (verifyUserDetails (fun _ : String => (0 : Int)) "joker"
        ⟨[], ["earlier"]⟩).2.reporterCalls.drop 1 :=
  ⟨rfl,
   verifyUserDetails_message_username_independent (fun _ => 0) (fun _ => 0)
     "robin" "joker" ⟨[], []⟩ ⟨[], ["earlier"]⟩ rfl⟩

/-- C10: if the reporter is invoked at all during a `verifyUserDetails` call
(the reporter trace changed), then that call returns `false`: error
reporting and granted access never co-occur. -/
theorem verifyUserDetails_report_implies_denied
    (checkUserDetails : String → Int) (username : String) (s : TraceState)
    (h : (verifyUserDetails checkUserDetails username s).2.reporterCalls ≠
      s.reporterCalls) :
    (verifyUserDetails checkUserDetails username s).1 = false := by
  rcases (verifyUserDetails_reporter_at_most_once checkUserDetails username
    s).2 h with h0 | hm
  · exact (verifyUserDetails_response_zero checkUserDetails username s h0).1
  · exact (verifyUserDetails_response_neg_one checkUserDetails username s
      hm).1

/-- Witness for C10 at a concrete call that reports an error. -/
theorem verifyUserDetails_report_implies_denied_witness :
    (verifyUserDetails (fun _ : String => (0 : Int)) "robin"
        ⟨[], []⟩).2.reporterCalls ≠ [] ∧
    (verifyUserDetails (fun _ : String => (0 : Int)) "robin"
        ⟨[], []⟩).1 = false :=
  ⟨by decide,
   verifyUserDetails_report_implies_denied (fun _ => 0) "robin" ⟨[], []⟩
     (by decide)⟩
